import Mathlib

/-!
Verification development for the gt7dashboard lap-telemetry analytics engine.

The file embeds `src/main.py` (the dashboard's scheduler, fuel-map tick,
graph update and widget handlers) as pure Lean functions over an explicit
application state.  The collaborator modules `gt7lap`, `gt7helper` and
`gt7communication` are not part of the sources; every definition taken from
them is marked `Modelled from the spec:` and follows the specification's
description of the corresponding component (sections 3 and 4.1-4.7).
-/

namespace GT7

/-- Modelled from the spec: one telemetry record of `gt7lap` (section 3
"Sample"): distance travelled, speed, throttle %, brake %, coast %,
position (x, z), fuel level and time index.  All numeric fields are
rationals so that interpolation and medians stay exact. -/
structure Sample where
  distance : Rat
  speed : Rat
  throttle : Rat
  brake : Rat
  coast : Rat
  pos_x : Rat
  pos_z : Rat
  fuel : Rat
  time : Rat
deriving DecidableEq

/-- Modelled from the spec: a completed lap of `gt7lap` (section 3 "Lap"):
an ordered sequence of samples plus metadata.  Laps compare by value, which
is what the scheduler's dirty check relies on (section 4.8: an in-place
mutation must be detected). -/
structure Lap where
  title : String
  number : Nat
  lap_finish_time : Rat
  fuel_at_end : Rat
  fuel_consumed : Rat
  manual_log : Bool
  samples : List Sample
deriving DecidableEq

/-- The speed column of a lap, as accessed by `main.py` (`lap.data_speed`). -/
def Lap.data_speed (l : Lap) : List Rat := l.samples.map Sample.speed

/-- The brake column of a lap, as accessed by `main.py` (`lap.data_braking`). -/
def Lap.data_braking (l : Lap) : List Rat := l.samples.map Sample.brake

/-- The canonical zero-sample placeholder lap (`Lap()` in `main.py`,
spec 4.1: a zero-sample lap is the placeholder when no real lap is
selected). -/
def emptyLap : Lap :=
  { title := "", number := 0, lap_finish_time := 0, fuel_at_end := 0,
    fuel_consumed := 0, manual_log := false, samples := [] }

/-- Modelled from the spec: the live `Session` aggregate of
`gt7communication` (section 3 "Session"). -/
structure Session where
  best_lap : Rat
  max_speed : Rat
  min_body_height : Rat
deriving DecidableEq

/-! ## 4.1 Distance resampler (Modelled from the spec: `gt7helper`) -/

/-- Modelled from the spec (4.1): keep a sample only when its distance is
strictly above the last kept distance, so the output grid is strictly
increasing and the first sample of each distinct distance wins. -/
def resampleGo : Option Rat → List Sample → List Sample
  | _, [] => []
  | none, s :: rest => s :: resampleGo (some s.distance) rest
  | some d, s :: rest =>
      if d < s.distance then s :: resampleGo (some s.distance) rest
      else resampleGo (some d) rest

/-- Modelled from the spec (4.1): project a lap onto its strictly
increasing distance grid.  A zero-sample lap yields an empty grid. -/
def resample (l : Lap) : List Sample := resampleGo none l.samples

/-- The per-distance column data handed to a graph source
(`gt7helper.get_data_from_lap` output columns used by `main.py`). -/
structure LapData where
  distance : List Rat
  speed : List Rat
  throttle : List Rat
  brake : List Rat
  coast : List Rat
  raceline_x : List Rat
  raceline_z : List Rat
deriving DecidableEq

/-- Modelled from the spec: `gt7helper.get_data_from_lap` — resample the
lap (4.1) and expose the per-distance field mappings consumed by the
visualisation layer (section 6).  With `distance_mode` unset the x column
is the time index instead of distance. -/
def get_data_from_lap (l : Lap) (distance_mode : Bool) : LapData :=
  let rs := resample l
  { distance := rs.map (fun s => if distance_mode then s.distance else s.time)
    speed := rs.map Sample.speed
    throttle := rs.map Sample.throttle
    brake := rs.map Sample.brake
    coast := rs.map Sample.coast
    raceline_x := rs.map Sample.pos_x
    raceline_z := rs.map Sample.pos_z }

/-- Modelled from the spec: the helper accepts the selector's optional lap;
a missing lap is the canonical zero-sample placeholder (4.1), which yields
empty columns rather than a fault (section 7). -/
def get_data_from_option_lap (l : Option Lap) (distance_mode : Bool) : LapData :=
  get_data_from_lap (l.getD emptyLap) distance_mode

/-! ## 4.6 Fuel projection model (Modelled from the spec: `gt7helper`) -/

/-- A row of the fuel map (section 3 "FuelMapRow"): one hypothetical
mixture setting, with `none` as the unbounded sentinel when the
extrapolated consumption is zero (section 7). -/
structure FuelMap where
  mixture_setting : Int
  fuel_consumed_per_lap : Rat
  laps_remaining_on_current_fuel : Option Rat
  time_remaining_on_current_fuel : Option Rat
  lap_time_diff : Rat
deriving DecidableEq

/-- Modelled from the spec (4.6): the ordered enumerated mixture settings,
weakest first, richest last; the source lap runs at setting `0`. -/
def fuelMixtureSettings : List Int := [-5, -4, -3, -2, -1, 0, 1, 2, 3, 4, 5]

/-- Modelled from the spec (4.6): the consumption multiplier of a mixture
setting; richer settings burn proportionally more fuel. -/
def fuelMultiplier (setting : Int) : Rat := 1 + (setting : Rat) / 10

/-- Modelled from the spec (4.6): the configured per-step lap-time constant
(milliseconds) driving the signed, monotonic lap-time delta. -/
def fuelLapTimeDiffPerStep : Rat := 250

/-- Round a rational to one decimal, as the fuel model does for the
laps-remaining column (4.6). -/
def roundOneDecimal (q : Rat) : Rat := (round (q * 10) : Int) / 10

/-- Modelled from the spec (4.6): one fuel-map row for a hypothetical
mixture setting, computed independently of all other rows from the source
lap's actual consumption, fuel level and lap time. -/
def fuelMapRow (l : Lap) (setting : Int) : FuelMap :=
  let consumed : Rat := l.fuel_consumed * (fuelMultiplier setting / fuelMultiplier 0)
  let lapsRem : Option Rat :=
    if consumed = 0 then none else some (roundOneDecimal (l.fuel_at_end / consumed))
  { mixture_setting := setting
    fuel_consumed_per_lap := consumed
    laps_remaining_on_current_fuel := lapsRem
    time_remaining_on_current_fuel := lapsRem.map (fun n => n * l.lap_finish_time)
    lap_time_diff := fuelLapTimeDiffPerStep * (0 - (setting : Rat)) }

/-- Modelled from the spec (4.6):
`gt7helper.get_fuel_on_consumption_by_relative_fuel_levels` — one row per
configured mixture setting, in the configured order. -/
def get_fuel_on_consumption_by_relative_fuel_levels (l : Lap) : List FuelMap :=
  fuelMixtureSettings.map (fuelMapRow l)

/-- Modelled from the spec: `gt7helper.seconds_to_lap_time` — render a
duration in seconds as minutes and seconds (visualisation detail). -/
def seconds_to_lap_time (seconds : Rat) : String :=
  let minutes : Int := (seconds / 60).floor
  toString minutes ++ ":" ++ toString (seconds - 60 * (minutes : Rat))

/-- Render an optional quantity, with the unbounded sentinel for `none`. -/
def renderOpt (q : Option Rat) : String :=
  match q with
  | none => "unbounded"
  | some v => toString v

/-- One rendered row of the fuel-map table of `update_fuel_map`
(`main.py` lines 228-247). -/
def renderFuelRow (fm : FuelMap) : String :=
  "<tr><td>" ++ toString fm.mixture_setting ++ "</td><td>"
    ++ toString fm.mixture_setting ++ "</td><td>"
    ++ toString fm.fuel_consumed_per_lap ++ "</td><td>"
    ++ renderOpt fm.laps_remaining_on_current_fuel ++ "</td><td>"
    ++ renderOpt (fm.time_remaining_on_current_fuel.map (fun t => t / 1000)) ++ "</td><td>"
    ++ seconds_to_lap_time (fm.lap_time_diff / 1000) ++ "</td></tr>"

/-- The fuel-map table markup built by `update_fuel_map`
(`main.py` lines 220-250): header, one row per fuel-map entry, footer with
the remaining fuel of the newest lap. -/
def renderFuelTable (rows : List FuelMap) (last_lap : Lap) : String :=
  "<table><tr><th>Fuel Lvl.</th><th>Fuel Cons.</th><th>Laps Rem.</th>"
    ++ "<th>Time Rem.</th><th>Time Diff</th></tr>"
    ++ String.join (rows.map renderFuelRow)
    ++ "</table><p>Fuel Remaining: <b>" ++ toString last_lap.fuel_at_end ++ "</b></p>"

/-! ## 4.2 Peak/valley detector (Modelled from the spec: `gt7helper`) -/

/-- Modelled from the spec (4.2): collapse runs of equal consecutive speeds
into single points, keeping the first point of each run, so plateaus are
not reported as repeated peaks.  Points are (speed, distance) pairs. -/
def collapsePlateaus : List (Rat × Rat) → List (Rat × Rat)
  | [] => []
  | [p] => [p]
  | p :: q :: rest =>
      if p.1 = q.1 then collapsePlateaus (p :: rest)
      else p :: collapsePlateaus (q :: rest)
termination_by l => l.length

/-- Modelled from the spec (4.2): scan the collapsed curve for sign flips
of the consecutive difference; returns (peaks, valleys), each an
ascending-distance sequence of (speed, distance) points. -/
def peaksValleysGo : List (Rat × Rat) → List (Rat × Rat) × List (Rat × Rat)
  | a :: b :: c :: rest =>
      let (ps, vs) := peaksValleysGo (b :: c :: rest)
      if a.1 < b.1 ∧ c.1 < b.1 then (b :: ps, vs)
      else if b.1 < a.1 ∧ b.1 < c.1 then (ps, b :: vs)
      else (ps, vs)
  | _ => ([], [])

/-- Modelled from the spec (4.2):
`gt7helper.get_speed_peaks_and_valleys` — peaks and valleys of the
speed-vs-distance curve of the resampled lap, returned as the four lists
unpacked by `main.py` (peak speeds, peak distances, valley speeds, valley
distances).  Fewer than three distinct points yield empty lists. -/
def get_speed_peaks_and_valleys (l : Lap) :
    List Rat × List Rat × List Rat × List Rat :=
  let curve := (resample l).map (fun s => (s.speed, s.distance))
  let (ps, vs) := peaksValleysGo (collapsePlateaus curve)
  (ps.map Prod.fst, ps.map Prod.snd, vs.map Prod.fst, vs.map Prod.snd)

/-! ## 4.3 Lap aligner and time-diff calculator (Modelled from the spec) -/

/-- The columns of the time-diff graph source (`main.py` sets
`data_sources[0].data` from `calculate_time_diff_by_distance`). -/
structure TimeDiffData where
  distance : List Rat
  timedelta : List Rat
  reference : List Rat
  comparison : List Rat
deriving DecidableEq

/-- Modelled from the spec (4.3, section 7): elapsed time of the comparison
lap at a distance, by linear interpolation between the bracketing samples,
clamped to the nearest bound outside the sampled range. -/
def interpClampGo (d : Rat) : Rat × Rat → List (Rat × Rat) → Rat
  | (_, ta), [] => ta
  | (da, ta), (db, tb) :: rest =>
      if d ≤ db then ta + (tb - ta) * (d - da) / (db - da)
      else interpClampGo d (db, tb) rest

/-- Modelled from the spec (4.3): clamped linear interpolation over an
ordered (distance, time) list; the empty list yields time 0 (unused: the
caller returns an empty series for an empty lap). -/
def interpClamp (ps : List (Rat × Rat)) (d : Rat) : Rat :=
  match ps with
  | [] => 0
  | (d0, t0) :: rest => if d ≤ d0 then t0 else interpClampGo d (d0, t0) rest

/-- The (distance, elapsed time) pairs of a lap's resampled grid. -/
def elapsedPairs (l : Lap) : List (Rat × Rat) :=
  (resample l).map (fun s => (s.distance, s.time))

/-- Modelled from the spec (4.3):
`gt7helper.calculate_time_diff_by_distance` — at every distance of the
reference lap's resampled grid, the comparison lap's interpolated elapsed
time minus the reference elapsed time (positive: comparison slower).
Either lap empty yields the empty series, not a fault. -/
def calculate_time_diff_by_distance (ref comp : Lap) : TimeDiffData :=
  let refPairs := elapsedPairs ref
  let compPairs := elapsedPairs comp
  if refPairs = [] ∨ compPairs = [] then
    { distance := [], timedelta := [], reference := [], comparison := [] }
  else
    { distance := refPairs.map Prod.fst
      timedelta := refPairs.map (fun p => interpClamp compPairs p.1 - p.2)
      reference := refPairs.map Prod.snd
      comparison := refPairs.map (fun p => interpClamp compPairs p.1) }

/-! ## 4.4 Median lap synthesizer (Modelled from the spec: `gt7helper`) -/

/-- Insert into a sorted rational list, keeping order. -/
def insertSorted (x : Rat) : List Rat → List Rat
  | [] => [x]
  | y :: ys => if x ≤ y then x :: y :: ys else y :: insertSorted x ys

/-- Insertion sort for rational lists. -/
def sortRat : List Rat → List Rat
  | [] => []
  | x :: xs => insertSorted x (sortRat xs)

/-- Statistical median of a rational list: middle element of the sorted
list, or the mean of the two middle elements for even length. -/
def medianR (xs : List Rat) : Rat :=
  let s := sortRat xs
  let n := s.length
  if n = 0 then 0
  else if n % 2 = 1 then s.getD (n / 2) 0
  else (s.getD (n / 2 - 1) 0 + s.getD (n / 2) 0) / 2

/-- Drop consecutive duplicates of a sorted list. -/
def dedupConsec : List Rat → List Rat
  | [] => []
  | [x] => [x]
  | x :: y :: r =>
      if x = y then dedupConsec (y :: r) else x :: dedupConsec (y :: r)

/-- The sorted distinct distance buckets covered by a lap collection. -/
def distanceBuckets (laps : List Lap) : List Rat :=
  dedupConsec (sortRat (laps.foldr (fun l acc => (resample l).map Sample.distance ++ acc) []))

/-- The contributing samples of a lap collection at one distance bucket:
for each lap, its resampled sample at exactly that distance, if any. -/
def samplesAtBucket (laps : List Lap) (d : Rat) : List Sample :=
  laps.filterMap (fun l => (resample l).find? (fun s => s.distance = d))

/-- Modelled from the spec (4.4): the per-bucket median sample — every
field is the statistical median of that field across the laps covering the
bucket; a bucket with no contributors is omitted. -/
def medianSampleAt (laps : List Lap) (d : Rat) : Option Sample :=
  match samplesAtBucket laps d with
  | [] => none
  | contributors =>
      some { distance := d
             speed := medianR (contributors.map Sample.speed)
             throttle := medianR (contributors.map Sample.throttle)
             brake := medianR (contributors.map Sample.brake)
             coast := medianR (contributors.map Sample.coast)
             pos_x := medianR (contributors.map Sample.pos_x)
             pos_z := medianR (contributors.map Sample.pos_z)
             fuel := medianR (contributors.map Sample.fuel)
             time := medianR (contributors.map Sample.time) }

/-- Modelled from the spec (4.4): the synthetic median lap over a lap
collection; zero laps yield the canonical empty placeholder. -/
def medianLapOf (laps : List Lap) : Lap :=
  { emptyLap with
    title := "Median Lap"
    lap_finish_time := medianR (laps.map Lap.lap_finish_time)
    samples := (distanceBuckets laps).filterMap (medianSampleAt laps) }

/-! ## 4.5 Reference lap selector (Modelled from the spec: `gt7helper`) -/

/-- Modelled from the spec (4.5): the best-lap-time lap of a collection,
breaking ties towards the earliest occurrence. -/
def bestLapOf : List Lap → Option Lap
  | [] => none
  | l :: rest =>
      match bestLapOf rest with
      | none => some l
      | some b => if b.lap_finish_time < l.lap_finish_time then some b else some l

/-- Modelled from the spec (4.5):
`gt7helper.get_last_reference_median_lap` — from the most-recent-first lap
list and the optional explicit selection, the (last, reference, median)
triple: last is the newest lap; the reference is the explicit selection if
still in the list, else the best-lap-time lap when at least two laps
exist, else none; the median lap exists whenever more than one lap does. -/
def get_last_reference_median_lap (laps : List Lap) (sel : Option Lap) :
    Option Lap × Option Lap × Option Lap :=
  let reference : Option Lap :=
    match sel with
    | some l =>
        if l ∈ laps then some l
        else if laps.length < 2 then none else bestLapOf laps
    | none => if laps.length < 2 then none else bestLapOf laps
  let median : Option Lap :=
    if 1 < laps.length then some (medianLapOf laps) else none
  (laps.head?, reference, median)

/-! ## 4.7 Brake-point detector (Modelled from the spec: `gt7helper`) -/

/-- Modelled from the spec (4.7): walk the samples reporting the (x, z)
position of each brake transition from 0% to non-zero; re-arming requires
the brake to return to 0% first. -/
def brakePointsGo (armed : Bool) : List Sample → List (Rat × Rat)
  | [] => []
  | s :: rest =>
      if 0 < s.brake then
        if armed then (s.pos_x, s.pos_z) :: brakePointsGo false rest
        else brakePointsGo false rest
      else brakePointsGo true rest

/-- Modelled from the spec (4.7): `gt7helper.get_brake_points` — the two
coordinate lists (x positions, z positions) of brake-engagement points of
a lap; no braking data yields empty lists. -/
def get_brake_points (l : Lap) : List Rat × List Rat :=
  let pts := brakePointsGo true l.samples
  (pts.map Prod.fst, pts.map Prod.snd)

/-! ## The dashboard state of `main.py` -/

/-- The environment a tick reads from the ingestion collaborator and the
process environment: the current most-recent-first lap list
(`app.gt7comm.get_laps()`), the connectivity flag (`is_connected()`), the
live session, and the `GT7_ADD_BRAKEPOINTS` environment variable. -/
structure Env where
  laps : List Lap
  connected : Bool
  session : Session
  brakepoints_env : Option String
deriving DecidableEq

/-- One scatter batch added to the race-line figure by
`update_break_points` (`main.py` lines 330-340). -/
structure MarkerBatch where
  color : String
  points : List (Rat × Rat)
deriving DecidableEq

/-- The graph outputs of `main.py`: the four `data_sources` column sources
(time diff, last, reference, median), the two race-line renderers and the
scatter markers accumulated on the race-line figure. -/
structure GraphState where
  time_diff_data : Option TimeDiffData
  last_lap_data : LapData
  reference_lap_data : LapData
  median_lap_data : LapData
  last_race_line : LapData
  reference_race_line : LapData
  race_line_markers : List MarkerBatch
deriving DecidableEq

/-- What one `update_speed_velocity_graph` run did: whether the time-diff
source was re-assigned and whether brake markers were added for the last
and reference laps. -/
structure GraphReport where
  time_diff_updated : Bool
  last_markers_added : Bool
  ref_markers_added : Bool
deriving DecidableEq

/-- The module-level mutable state of `main.py` (lines 461-466) together
with the widget outputs the tick functions write to. -/
structure AppState where
  g_laps_stored : List Lap
  g_session_stored : Option Session
  g_connection_status_stored : Option Bool
  g_reference_lap_selected : Option Lap
  g_stored_fuel_map : Option Lap
  g_telemetry_update_needed : Bool
  div_connection_info : String
  div_tuning_info : String
  div_last_lap : String
  div_reference_lap : String
  div_fuel_map : String
  time_table_laps : List Lap
  time_table_best_lap : Rat
  reference_lap_select_options : List (String × String)
  graph : GraphState
deriving DecidableEq

/-! ## Widget update helpers of `main.py` -/

/-- `update_connection_info` (`main.py` lines 188-193): the connectivity
indicator markup, green when connected, red otherwise. -/
def update_connection_info (connected : Bool) : String :=
  if connected then "<p title=Connected>🟢</p>"
  else "<p title=Disconnected>🔴</p>"

/-- `update_tuning_info` (`main.py` lines 423-428): session statistics
markup. -/
def update_tuning_info (sess : Session) : String :=
  "<p>Max Speed: <b>" ++ toString sess.max_speed ++ "</b> kph</p>"
    ++ "<p>Min Body Height: <b>" ++ toString sess.min_body_height ++ "</b> mm</p>"

/-- Modelled from the spec: `gt7helper.bokeh_tuple_for_list_of_laps` — the
(index, label) option pairs of a lap list for the selection widget. -/
def bokeh_tuple_for_list_of_laps (laps : List Lap) : List (String × String) :=
  laps.enum.map (fun p => (toString p.1, p.2.title))

/-- `update_reference_lap_select` (`main.py` lines 196-199): the explicit
"Best Lap" sentinel option followed by one option per lap. -/
def reference_select_options (laps : List Lap) : List (String × String) :=
  ("-1", "Best Lap") :: bokeh_tuple_for_list_of_laps laps

/-- The numbered peak or valley rows of the diagram markup
(`main.py` lines 404-417). -/
def renderPVRows (speeds dists : List Rat) : String :=
  String.join ((speeds.zip dists).enum.map (fun p =>
    "<tr><td>" ++ toString (p.1 + 1) ++ ".</td><td>" ++ toString p.2.1
      ++ " kph</td><td>" ++ toString p.2.2 ++ "</td></tr>"))

/-- `update_speed_peak_and_valley_diagram` (`main.py` lines 391-420): the
peak/valley table markup written to a lap's div. -/
def update_speed_peak_and_valley_diagram (lap : Lap) (title : String) : String :=
  let (px, py, vx, vy) := get_speed_peaks_and_valleys lap
  "<table><tr><th colspan=3>" ++ title ++ " - " ++ lap.title ++ "</th></tr>"
    ++ "<tr><th>#</th><th>Peak</th><th>Position</th></tr>" ++ renderPVRows px py
    ++ "<tr><th>#</th><th>Valley</th><th>Position</th></tr>" ++ renderPVRows vx vy
    ++ "</table>"

/-- `update_break_points` (`main.py` lines 330-340): one scatter batch per
lap, a circle at every brake point in the lap's colour. -/
def update_break_points (lap : Lap) (color : String) : MarkerBatch :=
  let (xs, ys) := get_brake_points lap
  { color := color, points := xs.zip ys }

/-- `update_speed_velocity_graph` (`main.py` lines 298-327): recompute the
(last, reference, median) triple, re-assign the four column sources and the
race lines, update the time-diff source only when a reference lap with
speed samples exists, and add brake markers only when
`GT7_ADD_BRAKEPOINTS` is the string "true" and the lap has braking data. -/
def update_speed_velocity_graph (brakepoints_env : Option String)
    (sel : Option Lap) (laps : List Lap) (g : GraphState) :
    GraphState × GraphReport :=
  let triple := get_last_reference_median_lap laps sel
  let last_lap := triple.1
  let reference_lap := triple.2.1
  let median_lap := triple.2.2
  let last_lap_data := get_data_from_option_lap last_lap true
  let reference_lap_data := get_data_from_option_lap reference_lap true
  let lastL := last_lap.getD emptyLap
  let refL := reference_lap.getD emptyLap
  let tdCond : Bool := reference_lap.isSome && decide (0 < refL.data_speed.length)
  let td :=
    if tdCond then some (calculate_time_diff_by_distance refL lastL)
    else g.time_diff_data
  let brake_points_enabled : Bool := brakepoints_env = some "true"
  let lastMarkers : Bool := brake_points_enabled && decide (0 < lastL.data_braking.length)
  let refMarkers : Bool := brake_points_enabled && decide (0 < refL.data_braking.length)
  let batches :=
    (if lastMarkers then [update_break_points lastL "blue"] else [])
      ++ (if refMarkers then [update_break_points refL "magenta"] else [])
  ({ time_diff_data := td
     last_lap_data := last_lap_data
     reference_lap_data := reference_lap_data
     median_lap_data := get_data_from_option_lap median_lap true
     last_race_line := last_lap_data
     reference_race_line := reference_lap_data
     race_line_markers := g.race_line_markers ++ batches },
   { time_diff_updated := tdCond
     last_markers_added := lastMarkers
     ref_markers_added := refMarkers })

/-! ## The fuel-map tick of `main.py` -/

/-- Outcome of one `update_fuel_map` tick: the new state, whether the
table was recomputed, and how many fuel projections (4.6) ran. -/
structure FuelTickResult where
  state : AppState
  recomputed : Bool
  fuel_projection_runs : Nat
deriving DecidableEq

/-- `update_fuel_map` (`main.py` lines 202-250): with no laps, blank the
fuel div and return; otherwise skip when the newest lap equals the stored
comparand, else store the newest lap and rebuild the table from it. -/
def update_fuel_map (env : Env) (s : AppState) : FuelTickResult :=
  match env.laps with
  | [] => ⟨{ s with div_fuel_map := "" }, false, 0⟩
  | last_lap :: _ =>
      if some last_lap = s.g_stored_fuel_map then ⟨s, false, 0⟩
      else
        let s1 := { s with g_stored_fuel_map := some last_lap }
        let rows := get_fuel_on_consumption_by_relative_fuel_levels last_lap
        ⟨{ s1 with div_fuel_map := renderFuelTable rows last_lap }, true, 1⟩

/-! ## The lap-change scheduler tick of `main.py` -/

/-- What one `update_lap_change` tick executed: whether the recompute
pipeline ran past the early return, and how many times each analytics
entry point was invoked during the tick. -/
structure TickReport where
  ran_pipeline : Bool
  peak_valley_diagram_runs : Nat
  time_table_runs : Nat
  ref_select_options_runs : Nat
  graph_runs : Nat
  fuel_projection_runs : Nat
  graph_report : Option GraphReport
deriving DecidableEq

/-- The report of a tick that returned early without recomputing. -/
def emptyTickReport : TickReport :=
  { ran_pipeline := false, peak_valley_diagram_runs := 0, time_table_runs := 0,
    ref_select_options_runs := 0, graph_runs := 0, fuel_projection_runs := 0,
    graph_report := none }

/-- Outcome of one `update_lap_change` tick. `dirty` is true exactly when
the tick proceeded past the early return and recomputed. -/
structure TickResult where
  state : AppState
  dirty : Bool
  report : TickReport
deriving DecidableEq

/-- The session and connectivity refresh at the top of `update_lap_change`
(`main.py` lines 264-270), which runs on every tick before the dirty
check and never touches the stored lap snapshot or the pending flag. -/
def updateSessionConn (env : Env) (s : AppState) : AppState :=
  let s1 :=
    if some env.session ≠ s.g_session_stored then
      { s with div_tuning_info := update_tuning_info env.session
               g_session_stored := some env.session }
    else s
  if some env.connected ≠ s1.g_connection_status_stored then
    { s1 with div_connection_info := update_connection_info env.connected
              g_connection_status_stored := some env.connected }
  else s1

/-- The recompute pipeline of `update_lap_change` (`main.py` lines
276-295): peak/valley diagrams when laps exist, the lap table, the
reference-select options and the speed/velocity graph, then persist the
lap snapshot and clear the pending flag. -/
def runPipeline (env : Env) (s : AppState) : AppState × TickReport :=
  let laps := env.laps
  let pv :=
    match laps with
    | [] => (s, 0)
    | last_lap :: _ =>
        let s1 := { s with
          div_last_lap := update_speed_peak_and_valley_diagram last_lap "Last Lap" }
        if 1 < laps.length then
          match (get_last_reference_median_lap laps s.g_reference_lap_selected).2.1 with
          | some reference_lap =>
              ({ s1 with div_reference_lap :=
                   update_speed_peak_and_valley_diagram reference_lap "Reference Lap" }, 2)
          | none => (s1, 1)
        else (s1, 1)
  let s1 := pv.1
  let s2 := { s1 with time_table_laps := laps
                      time_table_best_lap := env.session.best_lap }
  let s3 := { s2 with reference_lap_select_options := reference_select_options laps }
  let gr := update_speed_velocity_graph env.brakepoints_env
    s3.g_reference_lap_selected laps s3.graph
  let s4 := { s3 with graph := gr.1
                      g_laps_stored := laps
                      g_telemetry_update_needed := false }
  (s4, { ran_pipeline := true, peak_valley_diagram_runs := pv.2, time_table_runs := 1,
         ref_select_options_runs := 1, graph_runs := 1, fuel_projection_runs := 0,
         graph_report := some gr.2 })

/-- `update_lap_change` (`main.py` lines 253-295): refresh session and
connectivity indicators, then return early when the fetched lap list
equals the stored snapshot by value and no telemetry update is pending;
otherwise run the recompute pipeline once. -/
def update_lap_change (env : Env) (s : AppState) : TickResult :=
  let s1 := updateSessionConn env s
  if env.laps = s1.g_laps_stored ∧ s1.g_telemetry_update_needed = false then
    ⟨s1, false, emptyTickReport⟩
  else
    let pr := runPipeline env s1
    ⟨pr.1, true, pr.2⟩

/-- `n` consecutive lap-change ticks against a fixed environment (no
ingestion change and no widget handler in between); returns the final
state and the number of ticks whose pipeline ran. -/
def nTicks (env : Env) (s : AppState) : Nat → AppState × Nat
  | 0 => (s, 0)
  | n + 1 =>
      let r := update_lap_change env s
      let rest := nTicks env r.state n
      (rest.1, (if r.dirty then 1 else 0) + rest.2)

/-! ## Widget handlers and startup of `main.py` -/

/-- Python list indexing as used by `g_laps_stored[int(new)]`: negative
indices count from the end; out of range is an `IndexError` (`none`). -/
def pyIndex (l : List Lap) (i : Int) : Option Lap :=
  if 0 ≤ i then l[i.toNat]?
  else if (-i).toNat ≤ l.length then l[l.length - (-i).toNat]? else none

/-- The selection decoded by `load_reference_lap_handler` from the
widget's new value: `-1` is the explicit no-reference sentinel, any other
value indexes the stored lap list (`none`: the index access raises). -/
def decode_reference_selection (s : AppState) (new : Int) : Option (Option Lap) :=
  if new = -1 then some none
  else (pyIndex s.g_laps_stored new).map some

/-- `load_reference_lap_handler` (`main.py` lines 375-388): store the new
explicit selection, mark a telemetry update as needed, and immediately run
`update_lap_change`. `none` models the `IndexError` of an invalid index. -/
def load_reference_lap_handler (env : Env) (new : Int) (s : AppState) :
    Option TickResult :=
  match decode_reference_selection s new with
  | none => none
  | some sel =>
      some (update_lap_change env
        { s with g_reference_lap_selected := sel, g_telemetry_update_needed := true })

/-- The startup block of `main.py` (lines 430-447): with no IP configured
in `GT7_PLAYSTATION_IP` (unset or empty, both falsy), raise a fatal
configuration error; otherwise a communication handle for that IP is
created and started.  The raise happens once, at module import — the
function has no retry path. -/
def startup_gt7comm (playstation_ip : Option String) : Except String String :=
  match playstation_ip with
  | none => Except.error "No IP set in env var GT7_PLAYSTATION_IP"
  | some ip =>
      if ip = "" then Except.error "No IP set in env var GT7_PLAYSTATION_IP"
      else Except.ok ip

/-- The dummy column data both graph setups start from (`main.py` lines
126, 503): the resampled empty placeholder lap. -/
def dummyLapData : LapData := get_data_from_lap emptyLap true

/-- The initial graph state (`main.py` lines 123-141, 519-528): an empty
time-diff source, dummy data everywhere else, no markers. -/
def initialGraphState : GraphState :=
  { time_diff_data := none, last_lap_data := dummyLapData,
    reference_lap_data := dummyLapData, median_lap_data := dummyLapData,
    last_race_line := dummyLapData, reference_race_line := dummyLapData,
    race_line_markers := [] }

/-- The initial module state of `main.py` (lines 457-466 and the widget
constructions): empty snapshot, nothing stored, no pending update. -/
def initialState (best_lap : Rat) : AppState :=
  { g_laps_stored := [], g_session_stored := none,
    g_connection_status_stored := none, g_reference_lap_selected := none,
    g_stored_fuel_map := none, g_telemetry_update_needed := false,
    div_connection_info := "", div_tuning_info := "", div_last_lap := "",
    div_reference_lap := "", div_fuel_map := "",
    time_table_laps := [], time_table_best_lap := best_lap,
    reference_lap_select_options := [], graph := initialGraphState }

/-! ## Projections and concrete fixtures -/

/-- The graph outputs that are not race-line markers, used to state that
the brake-point environment flag influences nothing else. -/
def graphSansMarkers (g : GraphState) :
    Option TimeDiffData × LapData × LapData × LapData × LapData × LapData :=
  (g.time_diff_data, g.last_lap_data, g.reference_lap_data, g.median_lap_data,
   g.last_race_line, g.reference_race_line)

/-- A concrete telemetry sample for witnesses: throttle 50, the given
distance, speed and brake, position derived from the distance. -/
def mkSample (d sp br : Rat) : Sample :=
  { distance := d, speed := sp, throttle := 50, brake := br, coast := 0,
    pos_x := d, pos_z := d + 1, fuel := 90, time := d * 10 }

/-- A concrete five-sample lap. -/
def fixtureLapA : Lap :=
  { title := "Lap A", number := 1, lap_finish_time := 90000, fuel_at_end := 80,
    fuel_consumed := 10, manual_log := false,
    samples := [mkSample 0 100 0, mkSample 10 120 0, mkSample 20 110 30,
                mkSample 30 90 0, mkSample 40 130 0] }

/-- A second concrete lap, value-distinct from the first. -/
def fixtureLapB : Lap :=
  { title := "Lap B", number := 2, lap_finish_time := 91000, fuel_at_end := 70,
    fuel_consumed := 10, manual_log := false,
    samples := [mkSample 0 100 0, mkSample 10 118 0, mkSample 20 112 25,
                mkSample 30 95 0, mkSample 40 128 0] }

/-- A concrete session snapshot. -/
def fixtureSession : Session :=
  { best_lap := 90000, max_speed := 250, min_body_height := 80 }

/-- An environment with no laps accumulated yet. -/
def envNoLaps : Env :=
  { laps := [], connected := false, session := fixtureSession, brakepoints_env := none }

/-- An environment with two laps, newest first. -/
def envTwoLaps : Env :=
  { laps := [fixtureLapB, fixtureLapA], connected := true, session := fixtureSession,
    brakepoints_env := none }

/-- An environment holding only the newest of the two fixture laps. -/
def envOneLap : Env :=
  { laps := [fixtureLapB], connected := true, session := fixtureSession,
    brakepoints_env := none }

/-- The initial module state with the fixture best lap time. -/
def state0 : AppState := initialState 90000

/-- The initial state with a pending telemetry update and an unchanged
(empty) lap list: the scheduler is Dirty purely from the pending flag. -/
def statePending : AppState := { state0 with g_telemetry_update_needed := true }

/-- The initial state with a one-lap stored snapshot. -/
def stateStoredA : AppState := { state0 with g_laps_stored := [fixtureLapA] }

/-- The tick result the reference-selection handler produces on
`stateStoredA` when index 0 is selected. -/
def handlerResultA : TickResult :=
  update_lap_change envNoLaps
    { stateStoredA with g_reference_lap_selected := some fixtureLapA,
                        g_telemetry_update_needed := true }

/-! ## Helper lemmas about the scheduler tick -/

lemma updateSessionConn_laps_stored (env : Env) (s : AppState) :
    (updateSessionConn env s).g_laps_stored = s.g_laps_stored := by
  unfold updateSessionConn
  dsimp only
  split <;> split <;> rfl

lemma updateSessionConn_flag (env : Env) (s : AppState) :
    (updateSessionConn env s).g_telemetry_update_needed
      = s.g_telemetry_update_needed := by
  unfold updateSessionConn
  dsimp only
  split <;> split <;> rfl

lemma updateSessionConn_sel (env : Env) (s : AppState) :
    (updateSessionConn env s).g_reference_lap_selected
      = s.g_reference_lap_selected := by
  unfold updateSessionConn
  dsimp only
  split <;> split <;> rfl

lemma runPipeline_laps_stored (env : Env) (s : AppState) :
    (runPipeline env s).1.g_laps_stored = env.laps := rfl

lemma runPipeline_flag (env : Env) (s : AppState) :
    (runPipeline env s).1.g_telemetry_update_needed = false := rfl

lemma dirty_iff_aux (env : Env) (s : AppState) :
    (update_lap_change env s).dirty = true ↔
      env.laps ≠ s.g_laps_stored ∨ s.g_telemetry_update_needed = true := by
  unfold update_lap_change
  simp only [updateSessionConn_laps_stored, updateSessionConn_flag]
  split
  next h =>
    simp only [h.1, h.2]
    constructor
    · intro hc; exact absurd hc (by simp)
    · rintro (hc | hc) <;> simp_all
  next h =>
    simp only [true_iff]
    by_contra hh
    push_neg at hh
    exact h ⟨hh.1, by simpa using hh.2⟩

lemma tick_flag_false (env : Env) (s : AppState) :
    (update_lap_change env s).state.g_telemetry_update_needed = false := by
  unfold update_lap_change
  dsimp only
  split
  next h => simpa [updateSessionConn_flag] using h.2
  next h => exact runPipeline_flag env _

lemma tick_laps_stored (env : Env) (s : AppState) (h : env.laps = s.g_laps_stored) :
    (update_lap_change env s).state.g_laps_stored = env.laps := by
  unfold update_lap_change
  dsimp only
  split
  next => rw [updateSessionConn_laps_stored, ← h]
  next => exact runPipeline_laps_stored env _

lemma tick_not_dirty (env : Env) (s : AppState)
    (h : env.laps = s.g_laps_stored) (hf : s.g_telemetry_update_needed = false) :
    (update_lap_change env s).dirty = false := by
  unfold update_lap_change
  rw [if_pos]
  constructor
  · rw [updateSessionConn_laps_stored]; exact h
  · rw [updateSessionConn_flag]; exact hf

lemma clean_ticks_zero (env : Env) (n : ℕ) : ∀ (s : AppState),
    env.laps = s.g_laps_stored → s.g_telemetry_update_needed = false →
    (nTicks env s n).2 = 0 := by
  induction n with
  | zero => intro s _ _; rfl
  | succ n ih =>
      intro s h hf
      have hd := tick_not_dirty env s h hf
      have hl : env.laps = (update_lap_change env s).state.g_laps_stored := by
        rw [tick_laps_stored env s h]
      have hfl := tick_flag_false env s
      simp only [nTicks, hd, if_neg, Bool.false_eq_true, ite_false, zero_add]
      exact ih _ hl hfl

lemma nTicks_le_one (env : Env) (s : AppState) (n : ℕ)
    (h : env.laps = s.g_laps_stored) : (nTicks env s n).2 ≤ 1 := by
  cases n with
  | zero => simp [nTicks]
  | succ n =>
      have hl : env.laps = (update_lap_change env s).state.g_laps_stored := by
        rw [tick_laps_stored env s h]
      have hfl := tick_flag_false env s
      have hrest := clean_ticks_zero env n _ hl hfl
      simp only [nTicks, hrest]
      split <;> simp

lemma runPipeline_sel (env : Env) (s : AppState) :
    (runPipeline env s).1.g_reference_lap_selected = s.g_reference_lap_selected := by
  unfold runPipeline
  dsimp only
  cases env.laps with
  | nil => rfl
  | cons a rest =>
      dsimp only
      split
      · split <;> rfl
      · rfl

lemma tick_sel (env : Env) (s : AppState) :
    (update_lap_change env s).state.g_reference_lap_selected
      = s.g_reference_lap_selected := by
  unfold update_lap_change
  dsimp only
  split
  next => exact updateSessionConn_sel env s
  next => rw [runPipeline_sel]; exact updateSessionConn_sel env s

lemma runPipeline_conn_div (env : Env) (s : AppState) :
    (runPipeline env s).1.div_connection_info = s.div_connection_info := by
  unfold runPipeline
  dsimp only
  cases env.laps with
  | nil => rfl
  | cons a rest =>
      dsimp only
      split
      · split <;> rfl
      · rfl

lemma updateSessionConn_conn_div (env : Env) (s : AppState) :
    (updateSessionConn env s).div_connection_info =
      if some env.connected ≠ s.g_connection_status_stored
      then update_connection_info env.connected else s.div_connection_info := by
  unfold updateSessionConn
  dsimp only
  by_cases h1 : some env.session ≠ s.g_session_stored <;>
    by_cases h2 : some env.connected ≠ s.g_connection_status_stored <;>
      simp [h1, h2]

lemma tick_conn_div (env : Env) (s : AppState) :
    (update_lap_change env s).state.div_connection_info =
      if some env.connected ≠ s.g_connection_status_stored
      then update_connection_info env.connected else s.div_connection_info := by
  unfold update_lap_change
  dsimp only
  split
  next => exact updateSessionConn_conn_div env s
  next => rw [runPipeline_conn_div]; exact updateSessionConn_conn_div env s

lemma tick_dirty_report (env : Env) (s : AppState)
    (hd : (update_lap_change env s).dirty = true) :
    (update_lap_change env s).report = (runPipeline env (updateSessionConn env s)).2
    ∧ (update_lap_change env s).state = (runPipeline env (updateSessionConn env s)).1 := by
  unfold update_lap_change at hd ⊢
  dsimp only at hd ⊢
  split at hd
  next => simp at hd
  next h => rw [if_neg h]; exact ⟨rfl, rfl⟩

lemma runPipeline_report_counts (env : Env) (s : AppState) :
    (runPipeline env s).2.time_table_runs = 1
    ∧ (runPipeline env s).2.ref_select_options_runs = 1
    ∧ (runPipeline env s).2.graph_runs = 1
    ∧ (runPipeline env s).2.fuel_projection_runs = 0
    ∧ (runPipeline env s).2.ran_pipeline = true := by
  refine ⟨rfl, rfl, rfl, rfl, rfl⟩

lemma runPipeline_pv_runs (env : Env) (s : AppState) :
    ((runPipeline env s).2.peak_valley_diagram_runs = 0 ↔ env.laps = []) := by
  unfold runPipeline
  dsimp only
  cases env.laps with
  | nil => simp
  | cons a rest =>
      dsimp only
      constructor
      · intro h
        exfalso
        revert h
        split
        · split <;> simp
        · simp
      · intro h; exact absurd h (by simp)

/-! ## Claim theorems -/

/-- Claim C1: a lap-change tick proceeds past the early return
(Idle to Dirty) exactly when the fetched lap list differs by value from
the stored snapshot or a telemetry update is pending — the flag set by the
reference-selection handler and cleared by every completed run; in
particular replacing any stored lap in place by a value-distinct lap (as
manual logging does) is detected. -/
theorem update_lap_change_dirty_iff_value_change (env : Env) (s : AppState) :
    ((update_lap_change env s).dirty = true ↔
      env.laps ≠ s.g_laps_stored ∨ s.g_telemetry_update_needed = true)
    ∧ (∀ i : ℕ, i < s.g_laps_stored.length → ∀ lap' : Lap,
        lap' ≠ s.g_laps_stored.getD i emptyLap →
        (update_lap_change { env with laps := s.g_laps_stored.set i lap' } s).dirty
          = true) := by
  constructor
  · exact dirty_iff_aux env s
  · intro i hi lap' hne
    rw [dirty_iff_aux]
    left
    intro hEq
    apply hne
    have hEq' : s.g_laps_stored.set i lap' = s.g_laps_stored := hEq
    have hgd : (s.g_laps_stored.set i lap').getD i emptyLap
        = s.g_laps_stored.getD i emptyLap := by rw [hEq']
    rw [List.getD_eq_getElem?_getD, List.getElem?_set_self] at hgd
    · simpa [List.getD_eq_getElem?_getD] using hgd
    · exact hi

/-- Witness for C1: mutating the stored single-lap snapshot in place (same
length, different value at index 0) makes the next tick Dirty. -/
theorem update_lap_change_dirty_iff_value_change_witness :
    (update_lap_change
      { envNoLaps with laps := stateStoredA.g_laps_stored.set 0 fixtureLapB }
      stateStoredA).dirty = true :=
  (update_lap_change_dirty_iff_value_change envNoLaps stateStoredA).2 0 (by decide)
    fixtureLapB (by decide)

/-- Claim C2: across any number of consecutive ticks against a lap list
equal to the stored snapshot and with no reference-selection handler
interleaved, the recompute pipeline runs at most once. -/
theorem scheduler_coalesces_unchanged_ticks (env : Env) (s : AppState) (n : ℕ)
    (h : env.laps = s.g_laps_stored) : (nTicks env s n).2 ≤ 1 :=
  nTicks_le_one env s n h

/-- Witness for C2: three ticks on the unchanged empty lap list run the
pipeline at most once. -/
theorem scheduler_coalesces_unchanged_ticks_witness :
    envNoLaps.laps = state0.g_laps_stored ∧ (nTicks envNoLaps state0 3).2 ≤ 1 :=
  ⟨rfl, scheduler_coalesces_unchanged_ticks envNoLaps state0 3 rfl⟩

/-- Counterexample to claim C3 as stated: a Dirty lap-change tick (pending
flag set, empty lap list) that runs neither the fuel projection (4.6) nor
the peak/valley detector (4.2), refuting "on every Dirty tick all of
4.1-4.7 run exactly once". -/
theorem dirty_tick_without_fuel_projection_counterexample :
    (update_lap_change envNoLaps statePending).dirty = true
    ∧ (update_lap_change envNoLaps statePending).report.fuel_projection_runs = 0
    ∧ (update_lap_change envNoLaps statePending).report.peak_valley_diagram_runs = 0 := by
  decide

/-- Claim C3 (amended): on every Dirty tick the lap-change scheduler runs
its recompute pipeline exactly once — the lap table, the reference-select
options and the speed/velocity graph each exactly once, the peak/valley
diagrams exactly when laps exist — then persists the new lap-list snapshot
and clears the pending flag; the fuel projection is never part of this
pipeline (it runs on its own separate periodic callback). -/
theorem dirty_tick_runs_pipeline_once (env : Env) (s : AppState)
    (hd : (update_lap_change env s).dirty = true) :
    (update_lap_change env s).report.time_table_runs = 1
    ∧ (update_lap_change env s).report.ref_select_options_runs = 1
    ∧ (update_lap_change env s).report.graph_runs = 1
    ∧ (update_lap_change env s).report.fuel_projection_runs = 0
    ∧ ((update_lap_change env s).report.peak_valley_diagram_runs = 0 ↔ env.laps = [])
    ∧ (update_lap_change env s).state.g_laps_stored = env.laps
    ∧ (update_lap_change env s).state.g_telemetry_update_needed = false := by
  obtain ⟨hr, hs⟩ := tick_dirty_report env s hd
  rw [hr, hs]
  rcases runPipeline_report_counts env (updateSessionConn env s) with ⟨h1, h2, h3, h4, _⟩
  exact ⟨h1, h2, h3, h4, runPipeline_pv_runs env _, runPipeline_laps_stored env _,
    runPipeline_flag env _⟩

/-- Witness for the amended C3: the Dirty tick on the fresh two-lap list
updates the lap table once and never runs the fuel projection. -/
theorem dirty_tick_runs_pipeline_once_witness :
    (update_lap_change envTwoLaps state0).report.time_table_runs = 1
    ∧ (update_lap_change envTwoLaps state0).report.fuel_projection_runs = 0 :=
  ⟨(dirty_tick_runs_pipeline_once envTwoLaps state0 (by decide)).1,
   (dirty_tick_runs_pipeline_once envTwoLaps state0 (by decide)).2.2.2.1⟩

/-- Claim C4: when the reference-lap selector yields no reference lap, or
one without speed samples, the graph update leaves the time-diff source
untouched while still producing the last, reference and median views — and
raises no error (the update is a total function). -/
theorem missing_reference_omits_time_diff (benv : Option String) (sel : Option Lap)
    (laps : List Lap) (g : GraphState)
    (h : (((get_last_reference_median_lap laps sel).2.1).getD emptyLap).data_speed = []) :
    (update_speed_velocity_graph benv sel laps g).1.time_diff_data = g.time_diff_data
    ∧ (update_speed_velocity_graph benv sel laps g).2.time_diff_updated = false
    ∧ (update_speed_velocity_graph benv sel laps g).1.last_lap_data
        = get_data_from_option_lap (get_last_reference_median_lap laps sel).1 true
    ∧ (update_speed_velocity_graph benv sel laps g).1.reference_lap_data
        = get_data_from_option_lap (get_last_reference_median_lap laps sel).2.1 true
    ∧ (update_speed_velocity_graph benv sel laps g).1.median_lap_data
        = get_data_from_option_lap (get_last_reference_median_lap laps sel).2.2 true := by
  have hcond : ((get_last_reference_median_lap laps sel).2.1.isSome
      && decide (0 < (((get_last_reference_median_lap laps sel).2.1).getD
          emptyLap).data_speed.length)) = false := by
    rw [h]; simp
  unfold update_speed_velocity_graph
  dsimp only
  rw [hcond]
  exact ⟨rfl, rfl, rfl, rfl, rfl⟩

/-- Witness for C4: with a single lap and no explicit selection the
selector yields no reference lap and the time-diff source stays as it
was. -/
theorem missing_reference_omits_time_diff_witness :
    ((get_last_reference_median_lap [fixtureLapA] none).2.1.getD emptyLap).data_speed = []
    ∧ (update_speed_velocity_graph none none [fixtureLapA] initialGraphState).1.time_diff_data
        = initialGraphState.time_diff_data :=
  ⟨by decide,
   (missing_reference_omits_time_diff none none [fixtureLapA] initialGraphState
      (by decide)).1⟩

/-- Claim C5: a fuel-map tick on an empty lap list sets the fuel div to
the empty placeholder text, changes nothing else, recomputes nothing and
runs no fuel projection. -/
theorem fuel_map_empty_laps_placeholder (env : Env) (s : AppState) (h : env.laps = []) :
    update_fuel_map env s = ⟨{ s with div_fuel_map := "" }, false, 0⟩ := by
  unfold update_fuel_map
  rw [h]

/-- Witness for C5: the fuel-map tick on the no-lap environment blanks the
div and attempts no projection. -/
theorem fuel_map_empty_laps_placeholder_witness :
    update_fuel_map envNoLaps state0 = ⟨{ state0 with div_fuel_map := "" }, false, 0⟩ :=
  fuel_map_empty_laps_placeholder envNoLaps state0 rfl

/-- Claim C6: a fuel-map tick is a function of the newest lap alone — two
environments whose lap lists share the same head produce identical
outcomes, whatever the remaining laps are. -/
theorem fuel_map_depends_only_on_newest_lap (env1 env2 : Env) (s : AppState)
    (h : env1.laps.head? = env2.laps.head?) :
    update_fuel_map env1 s = update_fuel_map env2 s := by
  unfold update_fuel_map
  cases h1 : env1.laps with
  | nil =>
      cases h2 : env2.laps with
      | nil => rfl
      | cons b bs => rw [h1, h2] at h; simp at h
  | cons a as =>
      cases h2 : env2.laps with
      | nil => rw [h1, h2] at h; simp at h
      | cons b bs =>
          rw [h1, h2] at h
          simp only [List.head?_cons, Option.some.injEq] at h
          rw [h]

/-- Witness for C6: dropping the older lap from the two-lap list leaves
the fuel-map tick outcome unchanged. -/
theorem fuel_map_depends_only_on_newest_lap_witness :
    update_fuel_map envTwoLaps state0 = update_fuel_map envOneLap state0 :=
  fuel_map_depends_only_on_newest_lap envTwoLaps envOneLap state0 rfl

/-- Claim C7: startup raises the fatal configuration error exactly for a
missing (unset or empty, both falsy) `GT7_PLAYSTATION_IP`; the
connectivity indicator is the only green/red rendering, a tick updates it
exactly when the connectivity flag changed, and connectivity never
influences whether a tick recomputes. -/
theorem startup_fatal_iff_unconfigured :
    (∀ ip : Option String,
        (startup_gt7comm ip).isOk = false ↔ (ip = none ∨ ip = some ""))
    ∧ (∀ c : Bool, update_connection_info c =
        if c then "<p title=Connected>🟢</p>" else "<p title=Disconnected>🔴</p>")
    ∧ (∀ (env : Env) (s : AppState),
        (update_lap_change env s).state.div_connection_info =
          if some env.connected ≠ s.g_connection_status_stored
          then update_connection_info env.connected else s.div_connection_info)
    ∧ (∀ (env : Env) (s : AppState) (c : Bool),
        (update_lap_change { env with connected := c } s).dirty
          = (update_lap_change env s).dirty) := by
  refine ⟨?_, ?_, tick_conn_div, ?_⟩
  · intro ip
    cases ip with
    | none => simp [startup_gt7comm, Except.isOk, Except.toBool]
    | some v =>
        by_cases hv : v = "" <;> simp [startup_gt7comm, hv, Except.isOk, Except.toBool]
  · intro c; rfl
  · intro env s c
    rw [Bool.eq_iff_iff, dirty_iff_aux, dirty_iff_aux]

/-- Witness for C7: an unset IP is a fatal startup error. -/
theorem startup_fatal_iff_unconfigured_witness :
    (startup_gt7comm none).isOk = false :=
  (startup_fatal_iff_unconfigured.1 none).mpr (Or.inl rfl)

/-- Claim C8: whenever the reference-selection handler completes (for the
no-reference sentinel or any valid index), it stores the decoded
selection, marks a telemetry update as needed and immediately triggers a
scheduler run; that run is always Dirty, its state carries the new
selection, and it clears the pending flag. -/
theorem reference_selection_change_triggers_run (env : Env) (new : Int)
    (s : AppState) (r : TickResult)
    (h : load_reference_lap_handler env new s = some r) :
    ∃ sel : Option Lap,
      decode_reference_selection s new = some sel
      ∧ r = update_lap_change env
              { s with g_reference_lap_selected := sel, g_telemetry_update_needed := true }
      ∧ r.dirty = true
      ∧ r.state.g_reference_lap_selected = sel
      ∧ r.state.g_telemetry_update_needed = false := by
  unfold load_reference_lap_handler at h
  cases hdec : decode_reference_selection s new with
  | none => rw [hdec] at h; exact absurd h (by simp)
  | some sel =>
      rw [hdec] at h
      simp only [Option.some.injEq] at h
      refine ⟨sel, rfl, h.symm, ?_, ?_, ?_⟩
      · rw [← h, dirty_iff_aux]; right; rfl
      · rw [← h, tick_sel]
      · rw [← h, tick_flag_false]

/-- Witness for C8: selecting index 0 on a one-lap snapshot immediately
runs a Dirty tick. -/
theorem reference_selection_change_triggers_run_witness :
    handlerResultA.dirty = true := by
  obtain ⟨sel, _, _, hd, _, _⟩ :=
    reference_selection_change_triggers_run envNoLaps 0 stateStoredA handlerResultA rfl
  exact hd

/-- Claim C9: the graph update adds brake-point markers for the last
(resp. reference) lap exactly when `GT7_ADD_BRAKEPOINTS` is the string
"true" and that lap's braking data is non-empty; the markers added are
exactly those batches, and every non-marker output is independent of the
environment variable. -/
theorem brake_markers_only_when_enabled (benv : Option String)
    (sel : Option Lap) (laps : List Lap) (g : GraphState) :
    ((update_speed_velocity_graph benv sel laps g).2.last_markers_added = true ↔
      (benv = some "true"
        ∧ ((get_last_reference_median_lap laps sel).1.getD emptyLap).data_braking ≠ []))
    ∧ ((update_speed_velocity_graph benv sel laps g).2.ref_markers_added = true ↔
      (benv = some "true"
        ∧ ((get_last_reference_median_lap laps sel).2.1.getD emptyLap).data_braking ≠ []))
    ∧ ((update_speed_velocity_graph benv sel laps g).1.race_line_markers =
        g.race_line_markers
          ++ ((if (update_speed_velocity_graph benv sel laps g).2.last_markers_added
               then [update_break_points
                 ((get_last_reference_median_lap laps sel).1.getD emptyLap) "blue"]
               else [])
            ++ (if (update_speed_velocity_graph benv sel laps g).2.ref_markers_added
                then [update_break_points
                  ((get_last_reference_median_lap laps sel).2.1.getD emptyLap) "magenta"]
                else [])))
    ∧ (∀ benv' : Option String,
        graphSansMarkers (update_speed_velocity_graph benv' sel laps g).1
          = graphSansMarkers (update_speed_velocity_graph benv sel laps g).1) := by
  refine ⟨?_, ?_, rfl, fun benv' => rfl⟩
  · unfold update_speed_velocity_graph
    dsimp only
    rw [Bool.and_eq_true, decide_eq_true_eq, decide_eq_true_eq, List.length_pos]
  · unfold update_speed_velocity_graph
    dsimp only
    rw [Bool.and_eq_true, decide_eq_true_eq, decide_eq_true_eq, List.length_pos]

/-- Witness for C9: with the variable set to "true" and a braking lap,
markers for the last lap are added. -/
theorem brake_markers_only_when_enabled_witness :
    (update_speed_velocity_graph (some "true") none [fixtureLapA]
      initialGraphState).2.last_markers_added = true :=
  (brake_markers_only_when_enabled (some "true") none [fixtureLapA]
      initialGraphState).1.mpr ⟨rfl, by decide⟩

/-- Claim C10: on a fuel-map tick with laps present, the table is
recomputed exactly when the newest lap differs by value from the stored
comparand; on the recompute path the stored comparand becomes the newest
lap and the div is rebuilt from it; and an immediately following tick on
the same environment never recomputes. -/
theorem fuel_map_recompute_iff_newest_changed (env : Env) (s : AppState)
    (lap0 : Lap) (rest : List Lap) (h : env.laps = lap0 :: rest) :
    ((update_fuel_map env s).recomputed = true ↔ some lap0 ≠ s.g_stored_fuel_map)
    ∧ ((update_fuel_map env s).recomputed = true →
        (update_fuel_map env s).state.g_stored_fuel_map = some lap0
        ∧ (update_fuel_map env s).state.div_fuel_map
            = renderFuelTable (get_fuel_on_consumption_by_relative_fuel_levels lap0) lap0)
    ∧ (update_fuel_map env (update_fuel_map env s).state).recomputed = false := by
  unfold update_fuel_map
  rw [h]
  dsimp only
  by_cases hc : some lap0 = s.g_stored_fuel_map
  · rw [if_pos hc]
    refine ⟨by simp [hc], by intro hcontra; simp at hcontra, ?_⟩
    dsimp only
    rw [if_pos hc]
  · rw [if_neg hc]
    refine ⟨by simp [hc], fun _ => ⟨rfl, rfl⟩, ?_⟩
    dsimp only
    rw [if_pos rfl]

/-- Witness for C10: on the fresh state the newest lap differs from the
(empty) stored comparand, so the first fuel-map tick recomputes. -/
theorem fuel_map_recompute_iff_newest_changed_witness :
    (update_fuel_map envTwoLaps state0).recomputed = true :=
  (fuel_map_recompute_iff_newest_changed envTwoLaps state0 fixtureLapB [fixtureLapA]
      rfl).1.mpr (by decide)

end GT7
